import Mathlib

/-!
Verification of the EDMT telemetry ingestion / trajectory-reconstruction
pipeline (`src/edmt/models/drones.py` and
`src/edmt/models/get_flight_routes.py`).

The embedding models a telemetry table as a list of rows.  Coordinates are
rationals (exact stand-ins for the float columns), times are integers
(the `time(millisecond)` column), track ids are naturals.  The WGS84
inverse geodesic `pyproj.Geod.inv` is abstracted as a function
`Geodesic : point → point → Option ℚ`; `some d` is a computed distance and
`none` is a failing edge (pyproj exception, e.g. an antipodal degenerate
case).  Fallible Python code is embedded in `Option`/`Except`.

`pandas.sort_values` on the key list `['id', 'time(millisecond)']` is a
stable lexicographic sort (pandas uses `numpy.lexsort` for multi-key sorts);
a stable sort of a list with respect to a total preorder has a uniquely
determined output, so it is embedded by `List.insertionSort`, which is
stable and structurally recursive.  The single-key sort of
`_process_flight_to_polyline` uses pandas' default `kind='quicksort'`,
whose order among equal keys is implementation defined; the embedding uses
the stable order as a representative, and no theorem below depends on the
tie order of that sort.
-/

namespace EDMT

/-- One row of per-track telemetry after the fetch step merged the track's
metadata onto the CSV rows: track id (`id` column), longitude (`_x` /
`lon_col`), latitude (`_y` / `lat_col`), time (`time(millisecond)`), and the
remaining passthrough metadata cells. -/
structure TelemetryRow where
  fid : Nat
  x : ℚ
  y : ℚ
  t : ℤ
  meta : List (String × String)
deriving DecidableEq, Repr, Inhabited

/-- Abstract WGS84 inverse geodesic: `geod.inv(lon1, lat1, lon2, lat2)`
restricted to its distance output.  `none` models the computation raising
for that pair of points. -/
def Geodesic : Type := (ℚ × ℚ) → (ℚ × ℚ) → Option ℚ

/-- Sentinel mask of `airLine` / `airSegment`:
`mask = ~((gdf.geometry.x == 0) & (gdf.geometry.y == 0))` — a row is kept
unless both coordinates are exactly zero. -/
def zeroMask (r : TelemetryRow) : Bool := !(r.x == 0 && r.y == 0)

/-- Validity filter of `_process_flight_to_polyline`:
`valid = (csv_df[lon_col] != 0) & (csv_df[lat_col] != 0)` — a row is kept
only when both coordinates are nonzero. -/
def processValid (rows : List TelemetryRow) : List TelemetryRow :=
  rows.filter (fun r => r.x != 0 && r.y != 0)

/-- Sort key of `gdf.sort_values(['id', 'time(millisecond)'])`:
lexicographic by track id, then by time. -/
def lexLe (a b : TelemetryRow) : Prop :=
  a.fid < b.fid ∨ (a.fid = b.fid ∧ a.t ≤ b.t)

instance : DecidableRel lexLe := fun a b => by unfold lexLe; infer_instance

instance : IsTotal TelemetryRow lexLe :=
  ⟨by intro a b; unfold lexLe; omega⟩

instance : IsTrans TelemetryRow lexLe :=
  ⟨by intro a b c; unfold lexLe; omega⟩

/-- Sort key of `pts.sort_values(by=time_col)` in
`_process_flight_to_polyline`. -/
def timeLe (a b : TelemetryRow) : Prop := a.t ≤ b.t

instance : DecidableRel timeLe := fun a b => by unfold timeLe; infer_instance

/-- Shared cleaning step of `airLine` and `airSegment`: drop both-zero
sentinel rows, then sort stably by `['id', 'time(millisecond)']`. -/
def cleanSort (rows : List TelemetryRow) : List TelemetryRow :=
  List.insertionSort lexLe (rows.filter zeroMask)

/-- The group keys of `gdf.groupby('id', sort=False)` on the sorted frame:
track ids in order of appearance. -/
def trackIds (rows : List TelemetryRow) : List Nat :=
  (rows.map (fun r => r.fid)).dedup

/-- The rows of one `groupby('id')` group. -/
def groupOf (rows : List TelemetryRow) (i : Nat) : List TelemetryRow :=
  rows.filter (fun r => r.fid == i)

/-- Coordinate array of a group: `group[['_x', '_y']].values`. -/
def coordsOf (grp : List TelemetryRow) : List (ℚ × ℚ) :=
  grp.map (fun r => (r.x, r.y))

/-- Consecutive-point pairs of a coordinate array:
`zip(coords[:-1], coords[1:])`. -/
def edges (l : List (ℚ × ℚ)) : List ((ℚ × ℚ) × (ℚ × ℚ)) :=
  l.zip l.tail

/-- Consecutive-row pairs of a group, pairing each start point with the
next point. -/
def segPairs (grp : List TelemetryRow) : List (TelemetryRow × TelemetryRow) :=
  grp.zip grp.tail

/-- An all-or-nothing vectorised call: `some` of all results when every
element succeeds, `none` as soon as one fails.  Models a single
`geod.inv(lons1, lats1, lons2, lats2)` array call with no per-edge error
handling. -/
def optAll : List (Option γ) → Option (List γ)
  | [] => some []
  | none :: _ => none
  | some a :: rest => (optAll rest).map (fun l => a :: l)

/-- The vectorised geodesic over the consecutive edges of a coordinate
array. -/
def geodVec (g : Geodesic) (es : List ((ℚ × ℚ) × (ℚ × ℚ))) : Option (List ℚ) :=
  optAll (es.map (fun e => g e.1 e.2))

/-- `group[time_col].max()`. -/
def maxTime : List TelemetryRow → ℤ
  | [] => 0
  | r :: rs => (rs.map (fun s => s.t)).foldl max r.t

/-- One output row of `airLine`: polyline coordinates, last time, total
geodesic distance, and metadata taken from the group's first row. -/
structure PolyRow where
  fid : Nat
  coords : List (ℚ × ℚ)
  airline_time : ℤ
  airline_distance_m : ℚ
  meta : List (String × String)
deriving DecidableEq, Repr

/-- The body of `airLine`'s per-group loop.  A group with fewer than two
rows is skipped (`continue`, inner `none`).  The distances come from one
vectorised `geod.inv` call with no per-edge error handling, so a failing
edge fails the whole computation (outer `none`). -/
def lineOfGroup (g : Geodesic) (grp : List TelemetryRow) : Option (Option PolyRow) :=
  if grp.length < 2 then some none
  else
    match geodVec g (edges (coordsOf grp)) with
    | none => none
    | some dists =>
      some (some
        { fid := grp.headI.fid
          coords := coordsOf grp
          airline_time := maxTime grp
          airline_distance_m := dists.sum
          meta := grp.headI.meta })

/-- Shallow embedding of `airLine` (src/edmt/models/drones.py): clean and
sort the point table, then reduce each track to a polyline row.  `none`
models an exception escaping the (unprotected) per-group geodesic call. -/
def airLine (g : Geodesic) (rows : List TelemetryRow) : Option (List PolyRow) :=
  let s := cleanSort rows
  (optAll ((trackIds s).map (fun i => lineOfGroup g (groupOf s i)))).map
    List.reduceOption

/-- One output row of `airSegment`: the consecutive pair's times, duration,
geodesic distance, two-point geometry, and metadata copied from the
segment's start row. -/
structure SegRow where
  fid : Nat
  segment_start_time : ℤ
  segment_end_time : ℤ
  segment_duration_ms : ℤ
  segment_distance_m : ℚ
  geom : (ℚ × ℚ) × (ℚ × ℚ)
  meta : List (String × String)
deriving DecidableEq, Repr

/-- Assemble the per-pair segment rows of one group from the consecutive
row pairs and the vectorised distance results (`zip(starts, ends)`,
`t2s - t1s`, `dists`, `base_attrs = group.iloc[:-1]`). -/
def mkSegs (i : Nat) (prs : List (TelemetryRow × TelemetryRow)) (ds : List ℚ) :
    List SegRow :=
  (prs.zip ds).map (fun pd =>
    { fid := i
      segment_start_time := pd.1.1.t
      segment_end_time := pd.1.2.t
      segment_duration_ms := pd.1.2.t - pd.1.1.t
      segment_distance_m := pd.2
      geom := ((pd.1.1.x, pd.1.1.y), (pd.1.2.x, pd.1.2.y))
      meta := pd.1.1.meta })

/-- The body of `airSegment`'s per-group loop: fewer than two rows produce
no segments (`continue`), otherwise one segment per consecutive pair, with
the distances from the same unprotected vectorised geodesic call as
`airLine`. -/
def segsOfGroup (g : Geodesic) (grp : List TelemetryRow) : Option (List SegRow) :=
  if grp.length < 2 then some []
  else
    match geodVec g (edges (coordsOf grp)) with
    | none => none
    | some dists => some (mkSegs grp.headI.fid (segPairs grp) dists)

/-- Shallow embedding of `airSegment` (src/edmt/models/drones.py): clean
and sort the point table, then emit one row per consecutive point pair of
each track. -/
def airSegment (g : Geodesic) (rows : List TelemetryRow) : Option (List SegRow) :=
  let s := cleanSort rows
  (optAll ((trackIds s).map (fun i => segsOfGroup g (groupOf s i)))).map
    List.flatten

/-- Per-edge distance accumulation of `_process_flight_to_polyline`: each
edge is computed in its own `try`, a success adds `abs(dist)` and a failure
is skipped (`continue`), contributing zero. -/
def processDist (g : Geodesic) (coords : List (ℚ × ℚ)) : ℚ :=
  ((edges coords).map (fun e =>
    match g e.1 e.2 with
    | some d => |d|
    | none => 0)).sum

/-- The successful output of `_process_flight_to_polyline`: coordinates,
total distance, maximal time, and the passthrough metadata. -/
structure ProcResult where
  fid : Nat
  coords : List (ℚ × ℚ)
  flight_distance_m : ℚ
  flight_time_max_ms : ℤ
  meta : List (String × String)
deriving DecidableEq, Repr

/-- Shallow embedding of the cleaning and reduction core of
`_process_flight_to_polyline` (src/edmt/models/get_flight_routes.py),
applied to the parsed CSV rows of one track.  The time column is already
numeric in this model, so the `to_numeric`/`dropna` step is the identity;
the row count is re-checked after it exactly as in the source. -/
def process_flight_to_polyline (g : Geodesic) (rows : List TelemetryRow) :
    Option ProcResult :=
  let pts := processValid rows
  if pts.length < 2 then none
  else
    let pts := List.insertionSort timeLe pts
    if pts.length < 2 then none
    else
      some
        { fid := pts.headI.fid
          coords := coordsOf pts
          flight_distance_m := processDist g (coordsOf pts)
          flight_time_max_ms := maxTime pts
          meta := pts.headI.meta }

/-- A catalog-style pandas DataFrame at the granularity the coordinators
examine it: the frame's column list and its rows as association lists from
column name to cell text. -/
structure Catalog where
  cols : List String
  rows : List (List (String × String))
deriving DecidableEq, Repr

/-- Column membership, `name in df.columns`. -/
def Catalog.hasCol (c : Catalog) (name : String) : Bool :=
  c.cols.contains name

/-- `df["id"].isin(filter_ids)` for one catalog row. -/
def rowIdIn (ids : List String) (r : List (String × String)) : Bool :=
  match r.lookup ("id") with
  | some v => ids.contains v
  | none => false

/-- The id-filtering step of `airPoint`:
`df = df[df["id"].isin(filter_ids)]`, run only when `filter_ids is not
None`; accessing the `id` column raises `KeyError` when it is absent. -/
def apSelect (c : Catalog) (filter_ids : Option (List String)) :
    Except String (List (List (String × String))) :=
  match filter_ids with
  | none => .ok c.rows
  | some ids =>
    if c.hasCol ("id") then .ok (c.rows.filter (rowIdIn ids))
    else .error ("KeyError: id")

/-- The `range(0, total_rows, chunk_size)` partition of `airPoint`:
successive slices of `n` rows.  When the catalog has at most `n` rows this
yields the single chunk holding the whole frame, as in the
`use_chunks = total_rows > chunk_size` branch of the source. -/
def chunksOf : Nat → List α → List (List α)
  | _, [] => []
  | 0, _ :: _ => []
  | n + 1, a :: l =>
    (a :: l).take (n + 1) :: chunksOf (n + 1) ((a :: l).drop (n + 1))
termination_by _ l => l.length
decreasing_by
  simp only [List.length_drop, List.length_cons]
  omega

/-- `append_cols` (src/edmt/contrib/utils.py) re-selects
`df[remaining_cols + cols]`: it only reorders columns, so at row
granularity it is the identity (its `KeyError` on a listed column that is
absent cannot fire in `airPoint`: the fetch result guarantee broadcasts the
catalog's metadata columns, `checktime` included, onto every fetched row). -/
def append_cols (rows : List α) : List α := rows

/-- Modelled from the spec: `dict_expand` is imported by `airPoint` from
`edmt.contrib.utils` but its definition is missing from the source tree.
Per the spec (§2 and §9, dynamic per-row dict growth) it expands structured
dictionary fields (`participants.data`, `batteries.data`) into flat
columns, a column-only reshaping of the combined record set, so at row
granularity it is the identity. -/
def dict_expand (rows : List α) : List α := rows

/-- Shallow embedding of `airPoint` (src/edmt/models/drones.py).  The
per-row fetch `AirdataCSV` is imported from `edmt.base.base` but its
definition is missing from the source tree; modelled from the spec (§4.1,
Resource Fetcher): on success it returns the parsed CSV rows with the
catalog row's metadata broadcast onto them, and on final failure it
returns a no-data sentinel and never raises — hence the parameter
`fetch : catalog row → Option (merged rows)`.  Successful results are
collected in submission order (the spec guarantees no ordering and no
theorem below depends on it). -/
def airPoint (fetch : List (String × String) → Option (List α))
    (c : Catalog) (filter_ids : Option (List String)) : Except String (List α) :=
  -- df["checktime"] = pd.to_datetime(df["time"], errors="coerce") raises
  -- KeyError when the 'time' column is absent; with errors="coerce" the
  -- conversion itself never raises.
  if !(c.hasCol ("time")) then .error ("KeyError: time")
  else
    match apSelect c filter_ids with
    | .error e => .error e
    | .ok rows =>
      if rows.isEmpty then .ok []
      else if !(c.hasCol ("csvLink")) then
        .error ("ValueError: Column csvLink not found in DataFrame")
      else
        let all_dfs :=
          ((chunksOf 200 rows).map (fun ch => ch.filterMap fetch)).flatten
        if all_dfs.isEmpty then .ok []
        else .ok (append_cols (dict_expand all_dfs.flatten))

/-- The row subset processed by `get_flight_routes`: `if filter_ids:` is a
Python truthiness test, so both `None` and the empty list leave the
catalog unfiltered. -/
def gfrSelect (c : Catalog) (filter_ids : Option (List String)) :
    List (List (String × String)) :=
  match filter_ids with
  | none => c.rows
  | some ids => if ids.isEmpty then c.rows else c.rows.filter (rowIdIn ids)

/-- One worker invocation as `get_flight_routes` submits and collects it.
`executor.submit(_process_flight_to_polyline, row, lon_col, lat_col,
time_col)` passes only positional arguments, so the three column names are
bound to the `url_col`, `id_col`, `lon_col` parameter slots and the
trailing `logger` parameter keeps its default `None`, shadowing the module
logger inside the worker.  `core` is the outcome of the worker's try-body
for this row: `some` on full success (the single return that touches no
logger), `none` when any failure path is taken.  Every failure path
(non-record row, invalid URL, failed fetch, missing columns, fewer than
two points) first calls a method on `logger`; with `logger = None` that
call raises `AttributeError`, the catch-all `except` handler catches it
and itself calls `logger.debug` on `None`, so what escapes the worker —
for every failure path alike — is the `AttributeError` on `debug`.  (In
the source as submitted the try-body can in fact never succeed: the URL is
looked up under the misrouted `url_col := lon_col` column, and even a
valid URL there reaches the name `AirdataCSV`, which
`get_flight_routes.py` never imports, a `NameError` landing in the same
handler; `core` is kept general, which only adds behaviours.) -/
def workerRun (logger : Option Unit) (core : Option β) :
    Except String (Option β) :=
  match core with
  | some b => .ok (some b)
  | none =>
    match logger with
    | some _ => .ok none
    | none => .error ("AttributeError: NoneType object has no attribute debug")

/-- The `for future in as_completed(...)` collection loop of
`get_flight_routes`: `future.result()` re-raises the first worker
exception, aborting the batch; `None` results are skipped; successes are
appended. -/
def collectResults : List (Except String (Option β)) → Except String (List β)
  | [] => .ok []
  | .error e :: _ => .error e
  | .ok none :: rest => collectResults rest
  | .ok (some b) :: rest => (collectResults rest).map (fun l => b :: l)

/-- Shallow embedding of `get_flight_routes`
(src/edmt/models/get_flight_routes.py).  The parameter
`proc : catalog row → Option β` is the per-row try-body outcome of the
submitted worker `_process_flight_to_polyline`; each worker runs with the
`None` logger left by the positional submit (see `workerRun`), so a row
whose processing fails raises out of `future.result()` and the whole call
errors. -/
def get_flight_routes (proc : List (String × String) → Option β)
    (c : Catalog) (filter_ids : Option (List String)) : Except String (List β) :=
  if !(c.hasCol ("id") && c.hasCol ("csvLink")) then
    .error ("ValueError: Missing required columns")
  else
    let rows := gfrSelect c filter_ids
    if rows.isEmpty then .ok []
    else
      match collectResults (rows.map (fun r => workerRun none (proc r))) with
      | .error e => .error e
      | .ok results => if results.isEmpty then .ok [] else .ok results

/-! Concrete inputs used by the witnesses and counterexamples below. -/

/-- A row whose longitude is zero but whose latitude is not. -/
def singleZeroRow : TelemetryRow := ⟨7, 0, 5, 1000, []⟩

/-- A both-zero sentinel row. -/
def bothZeroRow : TelemetryRow := ⟨7, 0, 0, 1500, []⟩

/-- Scenario A of the spec: (0°E, 0°N) at t = 1000 and (1°E, 0°N) at
t = 2000, one track. -/
def scenarioATrack : List TelemetryRow :=
  [⟨1, 0, 0, 1000, []⟩, ⟨1, 1, 0, 2000, []⟩]

/-- A geodesic returning the Scenario A distance for every edge. -/
def gA : Geodesic := fun _ _ => some (11131949 / 100)

/-- A three-point track with nonzero coordinates. -/
def threeRowTrack : List TelemetryRow :=
  [⟨1, 1, 1, 1000, []⟩, ⟨1, 2, 2, 2000, []⟩, ⟨1, 3, 3, 3000, []⟩]

/-- A geodesic failing exactly on edges starting at (2, 2): the second
edge of `threeRowTrack`. -/
def gBad : Geodesic := fun a _ =>
  if a = ((2 : ℚ), (2 : ℚ)) then none else some 100

/-- A two-point single-track table with nonzero coordinates. -/
def wTrack : List TelemetryRow := [⟨1, 2, 3, 1000, []⟩, ⟨1, 4, 5, 2000, []⟩]

/-- A geodesic with constant distance 7. -/
def wGeod : Geodesic := fun _ _ => some 7

/-- The trajectory row `airLine` derives from `wTrack` under `wGeod`; its
distance is stated as the one-element sum the source computes. -/
def wPoly : PolyRow := ⟨1, [(2, 3), (4, 5)], 2000, List.sum [(7 : ℚ)], []⟩

/-- The single segment row `airSegment` derives from `wTrack` under
`wGeod`. -/
def wSeg : SegRow := ⟨1, 1000, 2000, 1000, 7, ((2, 3), (4, 5)), []⟩

/-- An always-failing fetch. -/
def noFetch : List (String × String) → Option (List Nat) := fun _ => none

/-- An always-failing per-track worker. -/
def noProc : List (String × String) → Option Nat := fun _ => none

/-- An empty catalog carrying every required column. -/
def emptyCatalog : Catalog := ⟨["id", "csvLink", "time"], []⟩

/-- A catalog lacking the `time` column. -/
def noTimeCatalog : Catalog :=
  ⟨["id", "csvLink"], [[("id", "t1"), ("csvLink", "u1")]]⟩

/-- A nonempty catalog lacking both required columns of
`get_flight_routes`. -/
def noIdCatalog : Catalog := ⟨["name"], [[("name", "z")]]⟩

/-- A nonempty catalog with `time` and `id` but no URL column. -/
def noUrlCatalog : Catalog := ⟨["time", "id"], [[("id", "t1")]]⟩

/-- Scenario C's catalog: three tracks with all columns the coordinators
use. -/
def threeTrackCatalog : Catalog :=
  ⟨["id", "csvLink", "time"],
   [[("id", "t1"), ("csvLink", "u1"), ("time", "x")],
    [("id", "t2"), ("csvLink", "u2"), ("time", "y")],
    [("id", "t3"), ("csvLink", "u3"), ("time", "z")]]⟩

/-- A fetch that fails exactly on track t2. -/
def wFetch : List (String × String) → Option (List Nat) := fun r =>
  if r.lookup ("id") = some ("t2") then none else some [10, 11]

/-- A per-row try-body outcome that fails exactly on track t2. -/
def wProc : List (String × String) → Option Nat := fun r =>
  if r.lookup ("id") = some ("t2") then none else some 5

/-- The distance field of an optional `_process_flight_to_polyline`
result. -/
def procDistOf (o : Option ProcResult) : Option ℚ :=
  o.map (fun r => r.flight_distance_m)

/-- Total of the segment distances of a list of segment rows. -/
def segDistSum (segs : List SegRow) : ℚ :=
  (segs.map (fun s => s.segment_distance_m)).sum

/-! Helper lemmas. -/

theorem optAll_eq_some_iff {l : List (Option γ)} {ys : List γ} :
    optAll l = some ys ↔ l = ys.map some := by
  induction l generalizing ys with
  | nil =>
    cases ys with
    | nil => simp [optAll]
    | cons y ys => simp [optAll]
  | cons a l ih =>
    cases a with
    | none =>
      cases ys with
      | nil => simp [optAll]
      | cons y ys => simp [optAll]
    | some a =>
      cases ys with
      | nil => simp [optAll, Option.map_eq_some']
      | cons y ys =>
        simp only [optAll, Option.map_eq_some', List.map_cons, List.cons.injEq,
          Option.some.injEq, ih]
        constructor
        · rintro ⟨zs, hzs, rfl, rfl⟩
          exact ⟨rfl, hzs⟩
        · rintro ⟨rfl, hzs⟩
          exact ⟨ys, hzs, rfl, rfl⟩

theorem optAll_eq_none_of_mem {l : List (Option γ)} (h : none ∈ l) :
    optAll l = none := by
  cases ho : optAll l with
  | none => rfl
  | some ys =>
    rw [optAll_eq_some_iff] at ho
    subst ho
    simp at h

theorem length_eq_of_optAll_eq_some {l : List (Option γ)} {ys : List γ}
    (h : optAll l = some ys) : ys.length = l.length := by
  rw [optAll_eq_some_iff] at h
  subst h
  simp

theorem chunksOf_flatten {n : Nat} (hn : n ≠ 0) :
    ∀ l : List α, (chunksOf n l).flatten = l
  | [] => by
    cases n with
    | zero => exact absurd rfl hn
    | succ m => simp [chunksOf]
  | a :: l => by
    cases n with
    | zero => exact absurd rfl hn
    | succ m =>
      simp only [chunksOf, List.flatten_cons]
      rw [chunksOf_flatten hn (List.drop (m + 1) (a :: l)), List.take_append_drop]
termination_by l => l.length
decreasing_by
  simp only [List.length_drop, List.length_cons]
  omega

theorem flatten_map_filterMap (f : γ → Option δ) :
    ∀ ll : List (List γ),
      (ll.map (fun ch => ch.filterMap f)).flatten = ll.flatten.filterMap f
  | [] => by simp
  | ch :: ll => by
    simp only [List.map_cons, List.flatten_cons, List.filterMap_append]
    rw [flatten_map_filterMap f ll]

theorem chain'_rel_of_mem_zip_tail {R : α → α → Prop} :
    ∀ {l : List α}, l.Chain' R → ∀ p ∈ l.zip l.tail, R p.1 p.2
  | [], _, p, hp => by simp at hp
  | [a], _, p, hp => by simp at hp
  | a :: b :: l, h, p, hp => by
    rw [List.chain'_cons] at h
    have hp' : p = (a, b) ∨ p ∈ (b :: l).zip ((b :: l).tail) := by
      simpa using hp
    rcases hp' with rfl | hp2
    · exact h.1
    · exact chain'_rel_of_mem_zip_tail h.2 p hp2

theorem mkSegs_map_dist (i : Nat) :
    ∀ (prs : List (TelemetryRow × TelemetryRow)) (ds : List ℚ),
      prs.length = ds.length →
      (mkSegs i prs ds).map (fun s => s.segment_distance_m) = ds
  | [], [], _ => rfl
  | [], d :: ds, h => by simp at h
  | p :: prs, [], h => by simp at h
  | p :: prs, d :: ds, h => by
    have ih := mkSegs_map_dist i prs ds (by simpa using h)
    simp only [mkSegs, List.zip_cons_cons, List.map_cons] at ih ⊢
    rw [ih]

theorem cleanSort_pairwise (rows : List TelemetryRow) :
    (cleanSort rows).Pairwise lexLe :=
  List.sorted_insertionSort lexLe (rows.filter zeroMask)

theorem groupOf_cleanSort_chain (rows : List TelemetryRow) (i : Nat) :
    (groupOf (cleanSort rows) i).Chain' timeLe := by
  have hp : (groupOf (cleanSort rows) i).Pairwise lexLe :=
    List.Pairwise.sublist (List.filter_sublist _) (cleanSort_pairwise rows)
  have hmem : ∀ r ∈ groupOf (cleanSort rows) i, r.fid = i := by
    intro r hr
    have h2 := (List.mem_filter.mp hr).2
    simpa using h2
  have hp2 : (groupOf (cleanSort rows) i).Pairwise timeLe := by
    refine hp.imp_of_mem ?_
    intro a b ha hb hab
    have hai := hmem a ha
    have hbi := hmem b hb
    unfold lexLe at hab
    unfold timeLe
    omega
  exact hp2.chain'

theorem airPoint_ok {α : Type} (fetch : List (String × String) → Option (List α))
    (c : Catalog) (fi : Option (List String))
    (rs : List (List (String × String)))
    (ht : c.hasCol ("time") = true) (hc : c.hasCol ("csvLink") = true)
    (hsel : apSelect c fi = .ok rs) :
    airPoint fetch c fi = .ok ((rs.filterMap fetch).flatten) := by
  have h200 : (200 : Nat) ≠ 0 := by omega
  have hflat : ((chunksOf 200 rs).map (fun ch => ch.filterMap fetch)).flatten
      = rs.filterMap fetch := by
    rw [flatten_map_filterMap, chunksOf_flatten h200 rs]
  by_cases hre : rs.isEmpty
  · have hnil : rs = [] := List.isEmpty_iff.mp hre
    subst hnil
    simp [airPoint, ht, hsel]
  · by_cases hde : (rs.filterMap fetch).isEmpty
    · have hnil : rs.filterMap fetch = [] := List.isEmpty_iff.mp hde
      simp [airPoint, ht, hc, hsel, hre, hflat, hnil]
    · simp [airPoint, ht, hc, hsel, hre, hflat, hde, append_cols, dict_expand]

/-! Claim theorems. -/

/-- C1: the point cleaners disagree on rows with exactly one zero
coordinate: the `airLine`/`airSegment` mask removes only both-zero rows
and keeps a (0, 5) row, while the `_process_flight_to_polyline` filter
also drops the (0, 5) row — contradicting the fixed both-zero sentinel
policy stated by the spec and by the source's own comment. -/
theorem point_cleaner_single_zero_divergence :
    processValid [singleZeroRow] = []
    ∧ [singleZeroRow].filter zeroMask = [singleZeroRow]
    ∧ processValid [bothZeroRow] = []
    ∧ [bothZeroRow].filter zeroMask = [] :=
  ⟨rfl, rfl, rfl, rfl⟩

/-- C4: Scenario A yields no output at all: the sentinel filter removes
the (0,0) point (and the `_process` filter also removes (1,0)), fewer
than two points remain, so `airLine` emits no trajectory row,
`airSegment` emits no segment, and `_process_flight_to_polyline` returns
no result — not a 111319.49 m trajectory with one 1000 ms segment. -/
theorem scenarioA_produces_no_output :
    airLine gA scenarioATrack = some []
    ∧ airSegment gA scenarioATrack = some []
    ∧ process_flight_to_polyline gA scenarioATrack = none :=
  ⟨rfl, rfl, rfl⟩

/-- C10: `filter_ids = []` applies no filtering: `if filter_ids:` is
false for the empty list, so `get_flight_routes` selects every catalog
row and behaves identically to `filter_ids = None`. -/
theorem gfr_empty_filter_ids_is_no_filter
    (β : Type) (proc : List (String × String) → Option β) (c : Catalog) :
    gfrSelect c (some []) = c.rows
    ∧ get_flight_routes proc c (some []) = get_flight_routes proc c none :=
  ⟨rfl, rfl⟩

/-- C9: a catalog without a `time` column makes `airPoint` fail with the
`KeyError` of the `checktime` conversion, whatever the rest of the
catalog looks like — in particular before the id filter, the emptiness
check and the `csvLink` check are consulted. -/
theorem airPoint_missing_time_raises
    (α : Type) (fetch : List (String × String) → Option (List α))
    (c : Catalog) (fi : Option (List String))
    (h : c.hasCol ("time") = false) :
    airPoint fetch c fi = .error ("KeyError: time") := by
  simp [airPoint, h]

/-- C9 witness: `noTimeCatalog` has `id` and `csvLink` columns and a
nonempty row set, yet `airPoint` fails with the time `KeyError`. -/
theorem airPoint_missing_time_raises_witness :
    noTimeCatalog.hasCol ("time") = false
    ∧ airPoint noFetch noTimeCatalog (some ["t1"]) = .error ("KeyError: time") :=
  ⟨rfl, airPoint_missing_time_raises Nat noFetch noTimeCatalog (some ["t1"]) rfl⟩

/-- C2: Scenario C traced on the code.  On the three-track catalog whose
track t2 fails, `get_flight_routes` raises instead of returning tracks t1
and t3: the failing worker runs with the `None` logger left by the
positional submit, its failure path's `AttributeError` lands in the
catch-all handler whose own `logger.debug` call raises again, and
`future.result()` re-raises that out of the batch call — contradicting
the claim, the worker's own docstring ("all exceptions are caught
internally") and the repository's partial-success tests.  `airPoint`,
with the spec-modelled sentinel-returning fetch, shows the claimed
tolerant behaviour: the successful results are concatenated and an
all-failing batch yields an empty result rather than an error. -/
theorem gfr_failed_fetch_raises :
    get_flight_routes wProc threeTrackCatalog none
      = .error ("AttributeError: NoneType object has no attribute debug")
    ∧ airPoint wFetch threeTrackCatalog none = .ok [10, 11, 10, 11]
    ∧ airPoint noFetch threeTrackCatalog none = .ok [] := by
  refine ⟨rfl, ?_, ?_⟩
  · exact airPoint_ok wFetch threeTrackCatalog none threeTrackCatalog.rows
      rfl rfl rfl
  · exact airPoint_ok noFetch threeTrackCatalog none threeTrackCatalog.rows
      rfl rfl rfl

/-- C5 counterexample: an empty catalog carrying every required column is
not rejected — both coordinators return an empty result instead of
raising. -/
theorem empty_catalog_not_an_error :
    get_flight_routes noProc emptyCatalog none = .ok []
    ∧ airPoint noFetch emptyCatalog none = .ok [] :=
  ⟨rfl, rfl⟩

/-- C5 amended: a catalog missing the `id` or URL column makes
`get_flight_routes` raise synchronously before any fetch worker is
consulted; `airPoint` raises for a missing URL column only once the
selected row set is nonempty (and a `time` column exists); an empty
catalog is not an error — both coordinators return an empty result. -/
theorem structural_error_policy {α β : Type}
    (fetch : List (String × String) → Option (List α))
    (proc : List (String × String) → Option β) :
    (∀ (c : Catalog) (fi : Option (List String)),
        (c.hasCol ("id") && c.hasCol ("csvLink")) = false →
        get_flight_routes proc c fi
          = .error ("ValueError: Missing required columns"))
    ∧ (∀ (c : Catalog) (fi : Option (List String))
          (rs : List (List (String × String))),
        c.hasCol ("time") = true → apSelect c fi = .ok rs →
        rs.isEmpty = false → c.hasCol ("csvLink") = false →
        airPoint fetch c fi
          = .error ("ValueError: Column csvLink not found in DataFrame"))
    ∧ (∀ c : Catalog, c.rows = [] → c.hasCol ("time") = true →
        (c.hasCol ("id") && c.hasCol ("csvLink")) = true →
        get_flight_routes proc c none = .ok []
        ∧ airPoint fetch c none = .ok []) := by
  refine ⟨?_, ?_, ?_⟩
  · intro c fi h
    simp [get_flight_routes, h]
  · intro c fi rs ht hsel hne hcsv
    simp [airPoint, ht, hsel, hne, hcsv]
  · intro c hrows ht hcols
    constructor
    · simp [get_flight_routes, hcols, gfrSelect, hrows]
    · simp [airPoint, ht, apSelect, hrows]

/-- C5 witness: concrete catalogs — missing columns raise in
`get_flight_routes`, a missing URL column raises in `airPoint`, and the
empty catalog yields empty outputs. -/
theorem structural_error_policy_witness :
    get_flight_routes noProc noIdCatalog none
      = .error ("ValueError: Missing required columns")
    ∧ airPoint noFetch noUrlCatalog none
      = .error ("ValueError: Column csvLink not found in DataFrame")
    ∧ (get_flight_routes noProc emptyCatalog none = .ok []
        ∧ airPoint noFetch emptyCatalog none = .ok []) := by
  have h := structural_error_policy noFetch noProc
  exact ⟨h.1 noIdCatalog none rfl,
    h.2.1 noUrlCatalog none noUrlCatalog.rows rfl rfl rfl rfl,
    h.2.2 emptyCatalog rfl rfl rfl⟩

/-- C3: for every input table, track id and geodesic, when a cleaned
track yields a trajectory row and segment rows, the sum of the segment
distances equals the trajectory's total distance exactly — hence in
particular within 1e-6 relative tolerance. -/
theorem segment_sum_eq_airline_distance
    (g : Geodesic) (rows : List TelemetryRow) (i : Nat)
    (p : PolyRow) (segs : List SegRow)
    (hp : lineOfGroup g (groupOf (cleanSort rows) i) = some (some p))
    (hs : segsOfGroup g (groupOf (cleanSort rows) i) = some segs) :
    segDistSum segs = p.airline_distance_m
    ∧ |segDistSum segs - p.airline_distance_m|
        ≤ (1 / 1000000) * |p.airline_distance_m| := by
  by_cases h2 : (groupOf (cleanSort rows) i).length < 2
  · rw [lineOfGroup, if_pos h2] at hp
    simp at hp
  · rw [lineOfGroup, if_neg h2] at hp
    rw [segsOfGroup, if_neg h2] at hs
    cases hgv : geodVec g (edges (coordsOf (groupOf (cleanSort rows) i))) with
    | none =>
      rw [hgv] at hp
      simp at hp
    | some ds =>
      rw [hgv] at hp hs
      simp only [Option.some.injEq] at hp hs
      have hlen : (segPairs (groupOf (cleanSort rows) i)).length = ds.length := by
        have h1 : ds.length
            = (edges (coordsOf (groupOf (cleanSort rows) i))).length := by
          have := length_eq_of_optAll_eq_some
            (show optAll ((edges (coordsOf (groupOf (cleanSort rows) i))).map
              (fun e => g e.1 e.2)) = some ds from hgv)
          simpa using this
        rw [h1]
        simp [edges, segPairs, coordsOf, List.length_zip]
      have hmap : segDistSum segs = ds.sum := by
        rw [← hs]
        unfold segDistSum
        rw [mkSegs_map_dist _ _ _ hlen]
      have hdist : p.airline_distance_m = ds.sum := by
        rw [← hp]
      refine ⟨by rw [hmap, hdist], ?_⟩
      rw [hmap, hdist, sub_self, abs_zero]
      positivity

/-- C3 witness: on the concrete two-point track with constant geodesic 7,
the single segment's distance sums to the trajectory distance 7. -/
theorem segment_sum_eq_airline_distance_witness :
    segDistSum [wSeg] = wPoly.airline_distance_m
    ∧ |segDistSum [wSeg] - wPoly.airline_distance_m|
        ≤ (1 / 1000000) * |wPoly.airline_distance_m| :=
  segment_sum_eq_airline_distance wGeod wTrack 1 wPoly [wSeg] rfl rfl

/-- C6: every segment row `airSegment` produces has a nonnegative
duration, and the cleaned per-track point sequences the segments are
built from have non-decreasing time values. -/
theorem airSegment_chronological
    (g : Geodesic) (rows : List TelemetryRow) (segs : List SegRow)
    (h : airSegment g rows = some segs) :
    (∀ s ∈ segs, 0 ≤ s.segment_duration_ms)
    ∧ ∀ i, (groupOf (cleanSort rows) i).Chain' timeLe := by
  refine ⟨?_, fun i => groupOf_cleanSort_chain rows i⟩
  intro s hsmem
  simp only [airSegment] at h
  obtain ⟨ys, hopt, hflat⟩ := Option.map_eq_some'.mp h
  rw [optAll_eq_some_iff] at hopt
  subst hflat
  obtain ⟨y, hy, hsy⟩ := List.mem_flatten.mp hsmem
  have hyy : some y ∈ (trackIds (cleanSort rows)).map
      (fun i => segsOfGroup g (groupOf (cleanSort rows) i)) := by
    rw [hopt]
    exact List.mem_map_of_mem some hy
  obtain ⟨i, hi, hseg⟩ := List.mem_map.mp hyy
  by_cases hl : (groupOf (cleanSort rows) i).length < 2
  · rw [segsOfGroup, if_pos hl] at hseg
    simp only [Option.some.injEq] at hseg
    rw [← hseg] at hsy
    simp at hsy
  · rw [segsOfGroup, if_neg hl] at hseg
    cases hgv : geodVec g (edges (coordsOf (groupOf (cleanSort rows) i))) with
    | none =>
      rw [hgv] at hseg
      simp at hseg
    | some ds =>
      rw [hgv] at hseg
      simp only [Option.some.injEq] at hseg
      rw [← hseg] at hsy
      obtain ⟨⟨⟨r1, r2⟩, d⟩, hx, hmk⟩ := List.mem_map.mp hsy
      have hpr : (r1, r2) ∈ segPairs (groupOf (cleanSort rows) i) :=
        (List.of_mem_zip hx).1
      have hchain := groupOf_cleanSort_chain rows i
      have hle : timeLe r1 r2 := by
        have := chain'_rel_of_mem_zip_tail hchain (r1, r2) hpr
        exact this
      have hdur : s.segment_duration_ms = r2.t - r1.t := by
        rw [← hmk]
      unfold timeLe at hle
      omega

/-- C6 witness: the chronology theorem applied to the concrete track. -/
theorem airSegment_chronological_witness :
    0 ≤ wSeg.segment_duration_ms
    ∧ (groupOf (cleanSort wTrack) 1).Chain' timeLe := by
  have h := airSegment_chronological wGeod wTrack [wSeg] rfl
  exact ⟨h.1 wSeg (by simp), h.2 1⟩

/-- C7 counterexample: under a geodesic failing on the second edge of the
three-point track, `airLine` aborts — the failing edge is not skipped and
no result is returned for the track — while `_process_flight_to_polyline`
skips it and still returns the track with the remaining distance 100. -/
theorem airline_edge_failure_aborts :
    airLine gBad threeRowTrack = none
    ∧ procDistOf (process_flight_to_polyline gBad threeRowTrack) = some 100 := by
  refine ⟨rfl, ?_⟩
  have h : procDistOf (process_flight_to_polyline gBad threeRowTrack)
      = some (List.sum [|(100 : ℚ)|, 0]) := rfl
  rw [h]
  simp

/-- C7 amended: edge-failure tolerance holds for
`_process_flight_to_polyline`: with at least two valid points it always
returns a result whose distance is the skip-failing-edges sum. It does
not hold for `airLine`: one failing edge in a group makes the whole
per-track geodesic call — and with it the track's computation — fail
rather than be skipped. -/
theorem edge_failure_policy
    (g : Geodesic) (rows : List TelemetryRow)
    (h2 : 2 ≤ (processValid rows).length) :
    procDistOf (process_flight_to_polyline g rows)
      = some (processDist g
          (coordsOf (List.insertionSort timeLe (processValid rows))))
    ∧ ∀ i e, e ∈ edges (coordsOf (groupOf (cleanSort rows) i)) →
        g e.1 e.2 = none →
        lineOfGroup g (groupOf (cleanSort rows) i) = none := by
  constructor
  · have hn : ¬ (processValid rows).length < 2 := by omega
    have hn2 : ¬ (List.insertionSort timeLe (processValid rows)).length < 2 := by
      rw [List.length_insertionSort]
      omega
    simp [process_flight_to_polyline, hn, hn2, procDistOf]
  · intro i e he hge
    have hmem : none ∈ (edges (coordsOf (groupOf (cleanSort rows) i))).map
        (fun e => g e.1 e.2) := by
      rw [← hge]
      exact List.mem_map_of_mem _ he
    have hgeod : geodVec g (edges (coordsOf (groupOf (cleanSort rows) i)))
        = none := optAll_eq_none_of_mem hmem
    have hlen : ¬ (groupOf (cleanSort rows) i).length < 2 := by
      intro hl
      have hnil : edges (coordsOf (groupOf (cleanSort rows) i)) = [] := by
        rcases hgrp : groupOf (cleanSort rows) i with _ | ⟨a, _ | ⟨b, l⟩⟩
        · simp [coordsOf, edges]
        · simp [coordsOf, edges]
        · rw [hgrp] at hl
          simp only [List.length_cons] at hl
          omega
      rw [hnil] at he
      simp at he
    rw [lineOfGroup, if_neg hlen, hgeod]

/-- C7 witness: the edge-failure policy theorem applied to the concrete
three-point track and failing geodesic. -/
theorem edge_failure_policy_witness :
    procDistOf (process_flight_to_polyline gBad threeRowTrack)
      = some (processDist gBad
          (coordsOf (List.insertionSort timeLe (processValid threeRowTrack))))
    ∧ lineOfGroup gBad (groupOf (cleanSort threeRowTrack) 1) = none := by
  have h := edge_failure_policy gBad threeRowTrack (by decide)
  exact ⟨h.1, h.2 1 (((2 : ℚ), (2 : ℚ)), ((3 : ℚ), (3 : ℚ))) (by decide) rfl⟩

end EDMT
